import Mathlib

/-!
Shallow embedding of `libcloud/common/linode.py` (Linode API client core):
the `LinodeException` error type, the `LinodeResponse` parser
(`parse_body`, `_make_excp`, `success`, `__init__`) and the
`LinodeConnection.add_default_params` operation, together with theorems
settling the specification claims about them.

JSON values decoded by `json.loads` are modelled by the inductive `Json`
(numbers as integers; floating point is out of scope for these claims).
Python runtime exceptions inside the guarded regions of `parse_body` are
modelled with `Except Unit`: `.error ()` stands for any raised exception
(`TypeError`, `KeyError`, ...) that the bare `except:` clauses catch.
-/

/-- An argument to Python `%`-formatting: an integer or a string. -/
inductive FmtArg where
  | int : Nat → FmtArg
  | str : String → FmtArg

/-- Python `%`-formatting restricted to the `%u` and `%s` conversions used
by `LinodeException.__str__` and `__repr__`: `%u` renders an integer in
decimal, `%s` renders via `str()`; every other character is copied. -/
def percentFormat : List Char → List FmtArg → List Char
  | '%' :: 'u' :: rest, FmtArg.int n :: as => (Nat.repr n).toList ++ percentFormat rest as
  | '%' :: 's' :: rest, FmtArg.str s :: as => s.toList ++ percentFormat rest as
  | '%' :: 's' :: rest, FmtArg.int n :: as => (Nat.repr n).toList ++ percentFormat rest as
  | c :: rest, as => c :: percentFormat rest as
  | [], _ => []

/-- `LinodeException(code, message)`: stores `code` and `message` as given
(`self.args = (code, message)` exposes the same pair). -/
structure LinodeException where
  code : Nat
  message : String

/-- `self.args = (code, message)` set in `LinodeException.__init__`. -/
def LinodeException.argsPair (e : LinodeException) : Nat × String :=
  (e.code, e.message)

/-- `LinodeException.__str__`: the Python expression
`"(%u) %s" % (self.code, self.message)`. -/
def LinodeException.strForm (e : LinodeException) : String :=
  String.mk (percentFormat "(%u) %s".toList [FmtArg.int e.code, FmtArg.str e.message])

/-- `LinodeException.__repr__`: the Python expression
`"<LinodeException code %u '%s'>" % (self.code, self.message)`. -/
def LinodeException.reprForm (e : LinodeException) : String :=
  String.mk (percentFormat "<LinodeException code %u '%s'>".toList
    [FmtArg.int e.code, FmtArg.str e.message])

/-- Request parameters: a Python dict from parameter name to value,
modelled as a partial map. -/
def RequestParams : Type :=
  String → Option String

/-- Python dict assignment `params[k] = v`. -/
def dictSet (params : RequestParams) (k v : String) : RequestParams :=
  fun x => if x = k then some v else params x

/-- `LinodeConnection.add_default_params`: sets `params["api_key"]` to the
held key and `params["api_responseFormat"]` to `"json"`, then returns the
params. -/
def add_default_params (key : String) (params : RequestParams) : RequestParams :=
  dictSet (dictSet params "api_key" key) "api_responseFormat" "json"

/-- A JSON value as produced by `json.loads`: `null`, booleans, numbers,
strings, arrays, and objects (Python dicts with string keys). -/
inductive Json where
  | null : Json
  | bool : Bool → Json
  | num : Int → Json
  | str : String → Json
  | arr : List Json → Json
  | obj : List (String × Json) → Json
deriving Repr

/-- Substring test on character lists, modelling Python `needle in s` for
strings (true when `needle` occurs contiguously in `hay`). -/
def charsContain (needle hay : List Char) : Bool :=
  match hay with
  | [] => needle.isEmpty
  | _ :: t => needle.isPrefixOf hay || charsContain needle t

/-- Python `needle in container` for a string needle: key lookup on a dict,
`==`-membership on a list (a string equals only an equal string), substring
test on a string, and a `TypeError` (modelled `.error ()`) on `null`,
booleans and numbers, which do not support `in`. -/
def pyContains (needle : String) (container : Json) : Except Unit Bool :=
  match container with
  | Json.obj fields => Except.ok (List.lookup needle fields).isSome
  | Json.arr xs =>
      Except.ok (xs.any (fun j =>
        match j with
        | Json.str s => s == needle
        | _ => false))
  | Json.str s => Except.ok (charsContain needle.toList s.toList)
  | _ => Except.error ()

/-- Python `container[needle]` for a string subscript: dict lookup
(`KeyError` when absent), `TypeError` on every other value. -/
def pyGetItem (container : Json) (needle : String) : Except Unit Json :=
  match container with
  | Json.obj fields =>
      match List.lookup needle fields with
      | some v => Except.ok v
      | none => Except.error ()
  | _ => Except.error ()

/-- Python iteration `for x in v`: a list yields its elements, a string its
characters (as one-character strings), a dict its keys; `null`, booleans
and numbers raise `TypeError`. -/
def pyIter (v : Json) : Except Unit (List Json) :=
  match v with
  | Json.arr xs => Except.ok xs
  | Json.str s => Except.ok (s.toList.map (fun c => Json.str (String.singleton c)))
  | Json.obj fields => Except.ok (fields.map (fun p => Json.str p.1))
  | _ => Except.error ()

/-- The error values that `parse_body` and `__init__` traffic in:
`LinodeException(code, message)` and `InvalidCredsError(message)` carrying
the JSON values they were constructed from, and
`MalformedResponseError(description, body=...)`. -/
inductive PyError where
  | linodeException : Json → Json → PyError
  | invalidCreds : Json → PyError
  | malformedResponse : String → String → PyError
deriving Repr

/-- The per-instance sentinel
`self.invalid = LinodeException(0xFF, "Invalid JSON received from server")`. -/
def invalidJsonError : PyError :=
  PyError.linodeException (Json.num 0xFF) (Json.str "Invalid JSON received from server")

/-- `LinodeResponse._make_excp(error)`: returns `None` (modelled `none`)
when `ERRORCODE` or `ERRORMESSAGE` is absent, an `InvalidCredsError` when
`ERRORCODE == 4`, and a `LinodeException` otherwise.  The membership tests
follow Python short-circuit evaluation and may themselves raise
(`.error ()`) on entries that do not support `in`. -/
def make_excp (error : Json) : Except Unit (Option PyError) := do
  let hasCode ← pyContains "ERRORCODE" error
  if !hasCode then
    return none
  let hasMsg ← pyContains "ERRORMESSAGE" error
  if !hasMsg then
    return none
  let c ← pyGetItem error "ERRORCODE"
  let m ← pyGetItem error "ERRORMESSAGE"
  match c with
  | Json.num n =>
      if n == 4 then return some (PyError.invalidCreds m)
      else return some (PyError.linodeException c m)
  | _ => return some (PyError.linodeException c m)

/-- The `for obj in js:` loop body of `parse_body`, processing the envelope
items in order and accumulating `ret` (objects; `none` is Python `None`)
and `errs` (whose entries are `Option PyError` because
`errs.extend(self._make_excp(e) ...)` appends the `None` results of
`_make_excp` as well). -/
def processItems : List Json → List (Option Json) → List (Option PyError) →
    Except Unit (List (Option Json) × List (Option PyError))
  | [], ret, errs => Except.ok (ret, errs)
  | obj :: rest, ret, errs => do
      let hasData ← pyContains "DATA" obj
      if !hasData then
        processItems rest (ret ++ [none]) (errs ++ [some invalidJsonError])
      else
        let hasErrArr ← pyContains "ERRORARRAY" obj
        if !hasErrArr then
          processItems rest (ret ++ [none]) (errs ++ [some invalidJsonError])
        else
          let hasAction ← pyContains "ACTION" obj
          if !hasAction then
            processItems rest (ret ++ [none]) (errs ++ [some invalidJsonError])
          else
            let data ← pyGetItem obj "DATA"
            let errArray ← pyGetItem obj "ERRORARRAY"
            let entries ← pyIter errArray
            let newErrs ← entries.mapM make_excp
            processItems rest (ret ++ [some data]) (errs ++ newErrs)

/-- The guarded extract step of `parse_body` (the second `try:` block):
promote a solitary dict to a one-element list, then run the item loop;
any exception becomes `.error ()`. -/
def extractStep (js : Json) : Except Unit (List (Option Json) × List (Option PyError)) := do
  let js' :=
    match js with
    | Json.obj _ => Json.arr [js]
    | _ => js
  let items ← pyIter js'
  processItems items [] []

/-- `LinodeResponse.parse_body`.  The outcome of the external `json.loads`
call is passed in as `decoded` (`none` = the decoder raised).  On decode
failure it raises `MalformedResponseError("Failed to parse JSON",
body=self.body)`; on any exception inside the extract step it returns the
fallback `(None, [self.invalid])`. -/
def parse_body (body : String) (decoded : Option Json) :
    Except PyError (Option (List (Option Json)) × List (Option PyError)) :=
  match decoded with
  | none => Except.error (PyError.malformedResponse "Failed to parse JSON" body)
  | some js =>
      match extractStep js with
      | Except.ok (ret, errs) => Except.ok (some ret, errs)
      | Except.error _ => Except.ok (none, [some invalidJsonError])

/-- `LinodeResponse.success`: `len(self.errors) == 0`, computed from the
errors list each time. -/
def success (errors : List (Option PyError)) : Bool :=
  errors.length == 0

/-- The tail of `LinodeResponse.__init__` after the body is read:
`self.objects, self.errors = self.parse_body()` followed by
`if not self.success(): raise self.errors[0]`.  The raised value is the
first entry of `errors`, which may be Python `None` (modelled `none`);
a `MalformedResponseError` from `parse_body` propagates unchanged. -/
def linodeResponse_init (body : String) (decoded : Option Json) :
    Except (Option PyError) (Option (List (Option Json)) × List (Option PyError)) :=
  match parse_body body decoded with
  | Except.error e => Except.error (some e)
  | Except.ok (objects, errors) =>
      if success errors then Except.ok (objects, errors)
      else
        match errors with
        | [] => Except.ok (objects, errors)
        | e :: _ => Except.error e

/-! Concrete inputs used by counterexamples and witnesses. -/

/-- A well-formed envelope whose only `ERRORARRAY` entry is the empty dict
(missing both `ERRORCODE` and `ERRORMESSAGE`). -/
def envMalformedEntry : Json :=
  Json.obj [("DATA", Json.null), ("ERRORARRAY", Json.arr [Json.obj []]), ("ACTION", Json.str "x")]

/-- The single-object envelope scenario from the specification:
`{"DATA": [1,2,3], "ERRORARRAY": [], "ACTION": "linode.list"}`. -/
def envListScenario : Json :=
  Json.obj [("DATA", Json.arr [Json.num 1, Json.num 2, Json.num 3]),
    ("ERRORARRAY", Json.arr []), ("ACTION", Json.str "linode.list")]

/-- An `ERRORARRAY` entry with `ERRORCODE=4`. -/
def entryCode4 : Json :=
  Json.obj [("ERRORCODE", Json.num 4), ("ERRORMESSAGE", Json.str "Auth failed")]

/-- An `ERRORARRAY` entry with `ERRORCODE=7`. -/
def entryCode7 : Json :=
  Json.obj [("ERRORCODE", Json.num 7), ("ERRORMESSAGE", Json.str "m")]

/-- An example params dict `{"foo": "bar"}`. -/
def fooParams : RequestParams :=
  dictSet (fun _ => none) "foo" "bar"

/-- Computation rule for `Except` bind on a success value. -/
@[simp]
theorem exceptOk_bind {ε α β : Type} (a : α) (f : α → Except ε β) :
    (Except.ok a : Except ε α) >>= f = f a :=
  rfl

/-- Computation rule for `Except` bind on a raised value. -/
@[simp]
theorem exceptError_bind {ε α β : Type} (e : ε) (f : α → Except ε β) :
    (Except.error e : Except ε α) >>= f = Except.error e :=
  rfl

/-- `pure` in the `Except` monad is `Except.ok`. -/
@[simp]
theorem exceptPure_eq_ok {ε α : Type} (a : α) :
    (pure a : Except ε α) = Except.ok a :=
  rfl

/-- C2: a body that is not syntactically valid JSON (the decoder raised, so
`decoded = none`) makes construction raise `MalformedResponseError` with
description "Failed to parse JSON" and the original raw body; `parse_body`
itself raises it, so it never reaches the errors sequence and construction
does not complete. -/
theorem claim2_malformed_json (b : String) :
    parse_body b none =
      Except.error (PyError.malformedResponse "Failed to parse JSON" b) ∧
    linodeResponse_init b none =
      Except.error (some (PyError.malformedResponse "Failed to parse JSON" b)) :=
  ⟨rfl, rfl⟩

/-- C7: whenever the extract step raises an unexpected error, `parse_body`
discards all partial progress and returns `(None, [self.invalid])` without
raising. -/
theorem claim7_extract_fallback (b : String) (js : Json)
    (h : extractStep js = Except.error ()) :
    parse_body b (some js) = Except.ok (none, [some invalidJsonError]) := by
  simp [parse_body, h]

/-- Witness for C7 at the non-iterable decoded value `3`. -/
theorem claim7_extract_fallback_witness :
    parse_body "w" (some (Json.num 3)) = Except.ok (none, [some invalidJsonError]) :=
  claim7_extract_fallback "w" (Json.num 3) rfl

/-- C10: a decoded top-level scalar (number, boolean or `null`) does not
raise `MalformedResponseError`: `parse_body` takes the defensive fallback
`(None, [self.invalid])` and the constructor then raises the sentinel
error (code `0xFF`). -/
theorem claim10_scalar_fallback (b : String) (js : Json)
    (h : (∃ n, js = Json.num n) ∨ (∃ v, js = Json.bool v) ∨ js = Json.null) :
    parse_body b (some js) = Except.ok (none, [some invalidJsonError]) ∧
    linodeResponse_init b (some js) = Except.error (some invalidJsonError) := by
  rcases h with ⟨n, rfl⟩ | ⟨v, rfl⟩ | rfl <;>
    exact ⟨rfl, rfl⟩

/-- Witness for C10 at the decoded number `7`. -/
theorem claim10_scalar_fallback_witness :
    parse_body "w" (some (Json.num 7)) = Except.ok (none, [some invalidJsonError]) ∧
    linodeResponse_init "w" (some (Json.num 7)) = Except.error (some invalidJsonError) :=
  claim10_scalar_fallback "w" (Json.num 7) (Or.inl ⟨7, rfl⟩)

/-- C9: `add_default_params` sets `api_key` to the held key and
`api_responseFormat` to `"json"`, overwriting any existing values, leaves
every other key unchanged, and returns the resulting mapping. -/
theorem claim9_add_default_params (key : String) (params : RequestParams) :
    add_default_params key params "api_key" = some key ∧
    add_default_params key params "api_responseFormat" = some "json" ∧
    ∀ k, k ≠ "api_key" → k ≠ "api_responseFormat" →
      add_default_params key params k = params k := by
  refine ⟨?_, ?_, ?_⟩
  · simp [add_default_params, dictSet]
  · simp [add_default_params, dictSet]
  · intro k hk hr
    simp [add_default_params, dictSet, hk, hr]

/-- Witness for C9: with key `"K"` and params `{"foo": "bar"}` the key
`"foo"` keeps its value. -/
theorem claim9_add_default_params_witness :
    add_default_params "K" fooParams "foo" = fooParams "foo" :=
  (claim9_add_default_params "K" fooParams).2.2 "foo" (by decide) (by decide)

/-- C5: for an `ERRORARRAY` entry carrying both `ERRORCODE` and
`ERRORMESSAGE`, `_make_excp` yields `InvalidCredsError(ERRORMESSAGE)` when
the code equals `4` and `LinodeException(ERRORCODE, ERRORMESSAGE)` for any
other code. -/
theorem claim5_make_excp_kinds (efs : List (String × Json)) (c m : Json)
    (hc : List.lookup "ERRORCODE" efs = some c)
    (hm : List.lookup "ERRORMESSAGE" efs = some m) :
    (c = Json.num 4 →
      make_excp (Json.obj efs) = Except.ok (some (PyError.invalidCreds m))) ∧
    (c ≠ Json.num 4 →
      make_excp (Json.obj efs) = Except.ok (some (PyError.linodeException c m))) := by
  constructor
  · rintro rfl
    simp [make_excp, pyContains, pyGetItem, hc, hm]
  · intro hne
    cases c with
    | num n =>
        have hn : ¬ n = 4 := by
          intro h
          exact hne (by rw [h])
        simp [make_excp, pyContains, pyGetItem, hc, hm, hn]
    | null => simp [make_excp, pyContains, pyGetItem, hc, hm]
    | bool v => simp [make_excp, pyContains, pyGetItem, hc, hm]
    | str s => simp [make_excp, pyContains, pyGetItem, hc, hm]
    | arr xs => simp [make_excp, pyContains, pyGetItem, hc, hm]
    | obj fs => simp [make_excp, pyContains, pyGetItem, hc, hm]

/-- Witness for C5 at the entries with codes 4 and 7. -/
theorem claim5_make_excp_kinds_witness :
    make_excp entryCode4 = Except.ok (some (PyError.invalidCreds (Json.str "Auth failed"))) ∧
    make_excp entryCode7 =
      Except.ok (some (PyError.linodeException (Json.num 7) (Json.str "m"))) :=
  ⟨(claim5_make_excp_kinds [("ERRORCODE", Json.num 4), ("ERRORMESSAGE", Json.str "Auth failed")]
      (Json.num 4) (Json.str "Auth failed") rfl rfl).1 rfl,
   (claim5_make_excp_kinds [("ERRORCODE", Json.num 7), ("ERRORMESSAGE", Json.str "m")]
      (Json.num 7) (Json.str "m") rfl rfl).2 (by simp)⟩

/-- C8 counterexample: at code `5` and message `"msg"` the debug/repr form
is `"<LinodeException code 5 'msg'>"`, not the claimed
`"<ApiError code=5 'msg'>"` (different type name, and no `=` between
`code` and the number). -/
theorem claim8_counterexample :
    (LinodeException.mk 5 "msg").reprForm ≠ "<ApiError code=5 'msg'>" ∧
    (LinodeException.mk 5 "msg").reprForm = "<LinodeException code 5 'msg'>" := by
  constructor
  · decide
  · decide

/-- C8 amended: for every `LinodeException` constructed with code `c` and
message `m`, the string form is exactly `"(<c>) <m>"`, the debug/repr form
is exactly `"<LinodeException code <c> '<m>'>"`, and `code`, `message` and
`args` expose the construction values unchanged. -/
theorem claim8_amended_forms (c : Nat) (m : String) :
    (LinodeException.mk c m).strForm = "(" ++ Nat.repr c ++ ") " ++ m ∧
    (LinodeException.mk c m).reprForm =
      "<LinodeException code " ++ Nat.repr c ++ " '" ++ m ++ "'>" ∧
    (LinodeException.mk c m).code = c ∧
    (LinodeException.mk c m).message = m ∧
    (LinodeException.mk c m).argsPair = (c, m) := by
  refine ⟨?_, ?_, rfl, rfl, rfl⟩
  · apply String.ext
    simp [LinodeException.strForm, percentFormat, String.toList, String.data_append]
  · apply String.ext
    simp [LinodeException.reprForm, percentFormat, String.toList, String.data_append]

/-- C4: an envelope item (a dict) missing any of `DATA`, `ERRORARRAY` or
`ACTION` contributes a `None` marker to `objects` and the invalid-JSON
sentinel to `errors`, its `ERRORARRAY` is not inspected, and processing
continues with the remaining items in order. -/
theorem claim4_missing_key_skips_item (fields : List (String × Json)) (rest : List Json)
    (ret : List (Option Json)) (errs : List (Option PyError))
    (h : List.lookup "DATA" fields = none ∨ List.lookup "ERRORARRAY" fields = none ∨
         List.lookup "ACTION" fields = none) :
    processItems (Json.obj fields :: rest) ret errs =
      processItems rest (ret ++ [none]) (errs ++ [some invalidJsonError]) := by
  rcases h with h | h | h
  · simp [processItems, pyContains, h]
  · cases hD : List.lookup "DATA" fields with
    | none => simp [processItems, pyContains, hD]
    | some d => simp [processItems, pyContains, pyGetItem, hD, h]
  · cases hD : List.lookup "DATA" fields with
    | none => simp [processItems, pyContains, hD]
    | some d =>
        cases hE : List.lookup "ERRORARRAY" fields with
        | none => simp [processItems, pyContains, hD, hE]
        | some ea => simp [processItems, pyContains, pyGetItem, hD, hE, h]

/-- Witness for C4: an empty dict item is skipped with a `None` object and
the sentinel error, and the following item is still processed. -/
theorem claim4_missing_key_skips_item_witness :
    processItems [Json.obj [], Json.obj []] [] [] =
      processItems [Json.obj []] [none] [some invalidJsonError] :=
  claim4_missing_key_skips_item [] [Json.obj []] [] [] (Or.inl rfl)

/-- C6: a single-object envelope carrying `DATA`, an empty `ERRORARRAY`
and `ACTION` is promoted to a one-element sequence; the parse yields
`objects = [DATA]` verbatim with empty errors, and `success` is true. -/
theorem claim6_single_object_ok (b : String) (fields : List (String × Json)) (d act : Json)
    (hD : List.lookup "DATA" fields = some d)
    (hE : List.lookup "ERRORARRAY" fields = some (Json.arr []))
    (hA : List.lookup "ACTION" fields = some act) :
    parse_body b (some (Json.obj fields)) = Except.ok (some [some d], []) ∧
    success [] = true := by
  constructor
  · simp [parse_body, extractStep, pyIter, processItems, pyContains, pyGetItem,
      List.mapM.loop, hD, hE, hA]
  · rfl

/-- Witness for C6 at the specification scenario
`{"DATA": [1,2,3], "ERRORARRAY": [], "ACTION": "linode.list"}`. -/
theorem claim6_single_object_ok_witness :
    parse_body "w6" (some envListScenario) =
      Except.ok (some [some (Json.arr [Json.num 1, Json.num 2, Json.num 3])], []) ∧
    success [] = true :=
  claim6_single_object_ok "w6"
    [("DATA", Json.arr [Json.num 1, Json.num 2, Json.num 3]),
     ("ERRORARRAY", Json.arr []), ("ACTION", Json.str "linode.list")]
    (Json.arr [Json.num 1, Json.num 2, Json.num 3]) (Json.str "linode.list") rfl rfl rfl

/-- C3: `success()` is true exactly when the errors sequence is empty
(computed from the sequence), and when errors is non-empty the constructor
raises exactly its first entry, discarding the rest. -/
theorem claim3_success_iff_first_raised (b : String) (dec : Option Json)
    (objs : Option (List (Option Json))) (errs : List (Option PyError))
    (h : parse_body b dec = Except.ok (objs, errs)) :
    (success errs = true ↔ errs = []) ∧
    (errs = [] → linodeResponse_init b dec = Except.ok (objs, errs)) ∧
    (∀ e rest, errs = e :: rest → linodeResponse_init b dec = Except.error e) := by
  refine ⟨?_, ?_, ?_⟩
  · simp [success]
  · rintro rfl
    simp [linodeResponse_init, h, success]
  · rintro e rest rfl
    simp [linodeResponse_init, h, success]

/-- Witness for C3: a non-iterable decoded body gives
`errors = [invalid]`, and the constructor raises that first entry. -/
theorem claim3_success_iff_first_raised_witness :
    linodeResponse_init "w3" (some (Json.num 5)) = Except.error (some invalidJsonError) :=
  (claim3_success_iff_first_raised "w3" (some (Json.num 5)) none
    [some invalidJsonError] rfl).2.2 (some invalidJsonError) [] rfl

/-- C1 counterexample: for the envelope whose only `ERRORARRAY` entry is
the empty dict (missing both `ERRORCODE` and `ERRORMESSAGE`), the `None`
returned by `_make_excp` is appended to the errors sequence by
`errs.extend(...)`: errors is `[None]`, not empty, `success()` is false,
and the constructor raises that `None`. -/
theorem claim1_counterexample :
    parse_body "b1" (some envMalformedEntry) = Except.ok (some [some Json.null], [none]) ∧
    success [none] = false ∧
    linodeResponse_init "b1" (some envMalformedEntry) = Except.error none :=
  ⟨rfl, rfl, rfl⟩

/-- An `ERRORARRAY` entry that is a dict missing `ERRORCODE` or
`ERRORMESSAGE` makes `_make_excp` return `None`. -/
theorem make_excp_malformed_none (efs : List (String × Json))
    (h : List.lookup "ERRORCODE" efs = none ∨ List.lookup "ERRORMESSAGE" efs = none) :
    make_excp (Json.obj efs) = Except.ok none := by
  rcases h with hm | hm
  · simp [make_excp, pyContains, hm]
  · cases hc : List.lookup "ERRORCODE" efs with
    | none => simp [make_excp, pyContains, hc]
    | some c => simp [make_excp, pyContains, pyGetItem, hc, hm]

/-- Mapping `_make_excp` over a list of malformed dict entries yields one
`None` per entry (stated over the `List.mapM` accumulator loop). -/
theorem mapM_loop_make_excp_malformed (entries : List Json) (acc : List (Option PyError))
    (h : ∀ e ∈ entries, ∃ efs, e = Json.obj efs ∧
        (List.lookup "ERRORCODE" efs = none ∨ List.lookup "ERRORMESSAGE" efs = none)) :
    List.mapM.loop make_excp entries acc =
      Except.ok (acc.reverse ++ entries.map (fun _ => none)) := by
  induction entries generalizing acc with
  | nil => simp [List.mapM.loop]
  | cons e es ih =>
      obtain ⟨efs, he, hmal⟩ := h e (List.mem_cons_self e es)
      subst he
      rw [List.mapM.loop]
      simp only [make_excp_malformed_none efs hmal, exceptOk_bind]
      rw [ih (none :: acc) (fun x hx => h x (List.mem_cons_of_mem _ hx))]
      simp

/-- C1 amended: `_make_excp` produces `None` for a malformed `ERRORARRAY`
entry, but `errs.extend` appends that `None` to the errors sequence, one
per malformed entry; hence a response whose items are well-formed and
whose `ERRORARRAY` entries are all malformed has errors equal to a list of
`None` markers and is successful only when `ERRORARRAY` is empty. -/
theorem claim1_amended_none_markers (b : String) (fields : List (String × Json))
    (d act : Json) (entries : List Json)
    (hD : List.lookup "DATA" fields = some d)
    (hE : List.lookup "ERRORARRAY" fields = some (Json.arr entries))
    (hA : List.lookup "ACTION" fields = some act)
    (hmal : ∀ e ∈ entries, ∃ efs, e = Json.obj efs ∧
        (List.lookup "ERRORCODE" efs = none ∨ List.lookup "ERRORMESSAGE" efs = none)) :
    parse_body b (some (Json.obj fields)) =
      Except.ok (some [some d], entries.map (fun _ => none)) ∧
    (success (entries.map (fun _ => none)) = true ↔ entries = []) := by
  constructor
  · simp [parse_body, extractStep, pyIter, processItems, pyContains, pyGetItem,
      hD, hE, hA, mapM_loop_make_excp_malformed entries [] hmal]
  · simp [success]

/-- Witness for the amended C1 at the counterexample envelope. -/
theorem claim1_amended_none_markers_witness :
    parse_body "w1" (some envMalformedEntry) =
      Except.ok (some [some Json.null], [none]) ∧
    (success [none] = true ↔ ([Json.obj []] : List Json) = []) :=
  claim1_amended_none_markers "w1"
    [("DATA", Json.null), ("ERRORARRAY", Json.arr [Json.obj []]), ("ACTION", Json.str "x")]
    Json.null (Json.str "x") [Json.obj []] rfl rfl rfl
    (fun e he => by
      rw [List.mem_singleton] at he
      subst he
      exact ⟨[], rfl, Or.inl rfl⟩)
